import Mathlib

/-!
Shallow embedding of the `futures` package of sauravbiswas/go-futures.

The Go sources define a generic `Future[T]` with fields
`task, mutex, result, err, state, done, next, onSuccess, onFailure, started`
and operations `NewFuture`, `Start`, `Result`, `Then`, `OnSuccess`,
`OnFailure`, `State`.

Modelling choices:
* the `task func() (T, error)` is represented by its pure return pair
  `(taskVal, taskErr)`; Go's `error` is `Option String` with `none` for nil;
* the `done` channel is the Boolean `doneClosed` (closed or not);
* the `next interface\x7b\x7d` link is the Boolean `hasNext`;
* callbacks are opaque identifiers (`Nat`); invoking one is recorded as an
  event in a trace, so firing order and multiplicity are observable;
* `Start` splits into its locked section `startSync` (the part up to the
  `go func()`) and the spawned goroutine body `taskGoroutine`;
* concurrency is modelled by interleaving: an `Op` names each atomic locked
  section, `exec` runs one, `execList` runs an arbitrary sequence.
-/

namespace GoFutures

/-- The `State` enumeration of `state.go`: Pending, Running, Fulfilled, Rejected. -/
inductive GoState where
  | Pending
  | Running
  | Fulfilled
  | Rejected
deriving DecidableEq

/-- Position of a state along the forward direction Pending → Running → terminal. -/
def GoState.rank : GoState → Nat
  | .Pending => 0
  | .Running => 1
  | .Fulfilled => 2
  | .Rejected => 2

/-- Whether a state is terminal (Fulfilled or Rejected). -/
def GoState.isTerminal : GoState → Bool
  | .Fulfilled => true
  | .Rejected => true
  | _ => false

/-- The `Future[T]` struct. `taskVal`/`taskErr` are the pure outcome of the
stored task; the remaining fields mirror the Go struct (the mutex is implicit
in the atomicity of each operation, the `done` channel is `doneClosed`, the
`next` pointer is `hasNext`, callbacks are identifiers). -/
structure Future (T : Type) where
  taskVal : T
  taskErr : Option String
  result : T
  err : Option String
  state : GoState
  doneClosed : Bool
  hasNext : Bool
  onSuccess : List Nat
  onFailure : List Nat
  started : Bool
deriving DecidableEq

/-- Observable events: the task being invoked, a success or failure callback
being invoked (with the value it receives), and `close(f.done)`. -/
inductive Event (T : Type) where
  | invokeTask
  | fireSuccess (id : Nat) (v : T)
  | fireFailure (id : Nat) (e : Option String)
  | signalDone
deriving DecidableEq

/-- Whether an event is the completion signal `close(f.done)`. -/
def Event.isSignal {T : Type} : Event T → Bool
  | .signalDone => true
  | _ => false

/-- `NewFuture`: state Pending, fresh (unclosed) done channel, no next link,
empty callback slices, not started; `result` and `err` hold Go zero values. -/
def NewFuture {T : Type} [Inhabited T] (taskVal : T) (taskErr : Option String) : Future T :=
  { taskVal := taskVal
    taskErr := taskErr
    result := default
    err := none
    state := GoState.Pending
    doneClosed := false
    hasNext := false
    onSuccess := []
    onFailure := []
    started := false }

/-- The locked section of `Future.Start`: if the state is not Pending or the
future is already started, return with no effect (second component `false`
records that no goroutine was spawned); otherwise set `started` and move the
state to Running, and spawn the task goroutine (second component `true`). -/
def startSync {T : Type} (f : Future T) : Future T × Bool :=
  if f.state ≠ GoState.Pending ∨ f.started = true then (f, false)
  else ({ f with started := true, state := GoState.Running }, true)

/-- The body of the goroutine spawned by `Start`, run when the task has
returned `(res, err)`: under the lock, if the state is no longer Running it
returns early (note: without closing `done`); otherwise it records the
outcome, moves to the terminal state, snapshots the matching callback list,
and — after releasing the lock — fires the snapshot in order and finally
closes `done`.  The returned trace lists the task invocation, the callback
invocations in firing order, and the close. -/
def taskGoroutine {T : Type} (f : Future T) : Future T × List (Event T) :=
  if f.state ≠ GoState.Running then (f, [Event.invokeTask])
  else
    match f.taskErr with
    | some e =>
        ({ f with err := some e, state := GoState.Rejected, doneClosed := true },
          Event.invokeTask ::
            (f.onFailure.map (fun id => Event.fireFailure id (some e)) ++ [Event.signalDone]))
    | none =>
        ({ f with result := f.taskVal, state := GoState.Fulfilled, doneClosed := true },
          Event.invokeTask ::
            (f.onSuccess.map (fun id => Event.fireSuccess id f.taskVal) ++ [Event.signalDone]))

/-- `Future.OnSuccess`: under the lock, if already Fulfilled fire the callback
immediately with the stored result and return; otherwise append it to the
success list. -/
def OnSuccess {T : Type} (f : Future T) (cb : Nat) : Future T × List (Event T) :=
  if f.state = GoState.Fulfilled then (f, [Event.fireSuccess cb f.result])
  else ({ f with onSuccess := f.onSuccess ++ [cb] }, [])

/-- `Future.OnFailure`: under the lock, if already Rejected fire the callback
immediately with the stored error and return; otherwise append it to the
failure list. -/
def OnFailure {T : Type} (f : Future T) (cb : Nat) : Future T × List (Event T) :=
  if f.state = GoState.Rejected then (f, [Event.fireFailure cb f.err])
  else ({ f with onFailure := f.onFailure ++ [cb] }, [])

/-- `Future.State`: read the state under the lock; no mutation. -/
def stateRead {T : Type} (f : Future T) : GoState := f.state

/-- The outcome of the task that `Then` builds for the child future:
`result, err := f.Result(); if err != nil, return nil, err; return cont(result)`.
The Boolean records whether the continuation was invoked. -/
def childOutcome {T A : Type} [Inhabited A] (parentRes : T × Option String)
    (cont : T → A × Option String) : (A × Option String) × Bool :=
  match parentRes.2 with
  | some e => ((default, some e), false)
  | none => (cont parentRes.1, true)

/-- `Future.Then`: returns the parent with its `next` link recorded, the new
child future (built by `NewFuture` around the chained task, hence Pending and
not started), and whether a `go f.Start()` of the parent was spawned (spawned
exactly when the parent was not already started).  The child's task outcome is
`childOutcome` of the parent's task outcome, since the child's task blocks on
the parent's `Result`. -/
def Then {T A : Type} [Inhabited A] (f : Future T) (cont : T → A × Option String) :
    Future T × Future A × Bool :=
  ({ f with hasNext := true },
    NewFuture (childOutcome (f.taskVal, f.taskErr) cont).1.1
      (childOutcome (f.taskVal, f.taskErr) cont).1.2,
    !f.started)

/-- `Future.Result` in the run in which the auto-started goroutine completes
before the wait on `done` returns: if not started, run the locked section of
`Start`; if that spawned the goroutine, the goroutine runs to completion;
then read `(result, err)` under the lock. -/
def ResultRun {T : Type} (f : Future T) : Future T × (T × Option String) :=
  let p := if f.started = true then (f, false) else startSync f
  let g := if p.2 = true then (taskGoroutine p.1).1 else p.1
  (g, (g.result, g.err))

/-- One atomic locked section of some operation, for the interleaving model.
`thenOp` is the synchronous part of `Then` on the parent; the `go f.Start()`
it spawns shows up as a later `startOp`; `resultReadOp` is the read at the
end of `Result`. -/
inductive Op (T : Type) where
  | startOp
  | completeOp
  | onSuccessOp (cb : Nat)
  | onFailureOp (cb : Nat)
  | thenOp (cont : T → T × Option String)
  | resultReadOp
  | stateOp

/-- Whether an op is the completion-goroutine body. -/
def Op.isComplete {T : Type} : Op T → Bool
  | .completeOp => true
  | _ => false

/-- Run one atomic section, returning the new future and its event trace. -/
def exec {T : Type} [Inhabited T] (f : Future T) : Op T → Future T × List (Event T)
  | .startOp => ((startSync f).1, [])
  | .completeOp => taskGoroutine f
  | .onSuccessOp cb => OnSuccess f cb
  | .onFailureOp cb => OnFailure f cb
  | .thenOp cont => ((Then f cont).1, [])
  | .resultReadOp => (f, [])
  | .stateOp => (f, [])

/-- Run a sequence of atomic sections, concatenating the traces. -/
def execList {T : Type} [Inhabited T] (f : Future T) : List (Op T) → Future T × List (Event T)
  | [] => (f, [])
  | op :: ops =>
      let r := exec f op
      let rest := execList r.1 ops
      (rest.1, r.2 ++ rest.2)

/-- Whether running `op` on `f` spawns the task goroutine (only a `Start`
whose guard passes does). -/
def opSpawns {T : Type} (f : Future T) : Op T → Bool
  | .startOp => (startSync f).2
  | _ => false

/-- Number of task-goroutine spawns along a sequence of atomic sections. -/
def spawnCount {T : Type} [Inhabited T] (f : Future T) : List (Op T) → Nat
  | [] => 0
  | op :: ops => (if opSpawns f op then 1 else 0) + spawnCount (exec f op).1 ops

/-- Denotational composition of a homogeneous `Then` chain: fold
`childOutcome` over the continuations, counting invoked continuations. -/
def runChain {T : Type} [Inhabited T] (seed : T × Option String) :
    List (T → T × Option String) → (T × Option String) × Nat
  | [] => (seed, 0)
  | c :: cs =>
      let s := childOutcome seed c
      let r := runChain s.1 cs
      (r.1, (if s.2 then 1 else 0) + r.2)

/-- Forget the introspective `next` link. -/
def eraseNext {T : Type} (f : Future T) : Future T := { f with hasNext := false }

/-- The state transitions the spec allows for a single operation: stay put,
Pending → Running, or Running → Fulfilled/Rejected. -/
def edgeOK (s t : GoState) : Prop :=
  t = s ∨ (s = GoState.Pending ∧ t = GoState.Running) ∨
    (s = GoState.Running ∧ (t = GoState.Fulfilled ∨ t = GoState.Rejected))

/-- The four-link chain of the repository's `TestMultipleChainedFutures`:
seed task returns `"Start"`, three links each append a suffix. -/
def chainLink1 : Future String × Future String × Bool :=
  Then (NewFuture "Start" none) (fun s => (s ++ " → Step 1", none))

/-- Second link of the concrete chain. -/
def chainLink2 : Future String × Future String × Bool :=
  Then chainLink1.2.1 (fun s => (s ++ " → Step 2", none))

/-- Third link of the concrete chain. -/
def chainLink3 : Future String × Future String × Bool :=
  Then chainLink2.2.1 (fun s => (s ++ " → Step 3", none))

/-! ### Helper lemmas shared by the claim theorems -/

/-- Every atomic section preserves `started = true`: once set, never unset. -/
theorem exec_keeps_started {T : Type} [Inhabited T] (f : Future T) (op : Op T)
    (h : f.started = true) : (exec f op).1.started = true := by
  cases op <;>
    simp only [exec, startSync, taskGoroutine, OnSuccess, OnFailure, Then] <;>
    (repeat' split) <;> simp_all

/-- `execList` preserves `started = true`. -/
theorem execList_keeps_started {T : Type} [Inhabited T] (f : Future T) (ops : List (Op T))
    (h : f.started = true) : (execList f ops).1.started = true := by
  induction ops generalizing f with
  | nil => exact h
  | cons op ops ih => exact ih _ (exec_keeps_started f op h)

/-- A started future never spawns the task goroutine again. -/
theorem opSpawns_of_started {T : Type} (f : Future T) (op : Op T)
    (h : f.started = true) : opSpawns f op = false := by
  cases op <;> simp_all [opSpawns, startSync]

/-- A started future spawns nothing along any sequence of sections. -/
theorem spawnCount_of_started {T : Type} [Inhabited T] (f : Future T) (ops : List (Op T))
    (h : f.started = true) : spawnCount f ops = 0 := by
  induction ops generalizing f with
  | nil => rfl
  | cons op ops ih =>
      simp only [spawnCount, opSpawns_of_started f op h, if_neg]
      simpa using ih _ (exec_keeps_started f op h)

/-- A spawning `Start` leaves the future started. -/
theorem started_after_spawn {T : Type} [Inhabited T] (f : Future T) (op : Op T)
    (h : opSpawns f op = true) : (exec f op).1.started = true := by
  cases op <;> simp_all [opSpawns, exec, startSync] <;>
    (repeat' split at h) <;> simp_all [startSync]

/-- Along any sequence of atomic sections the task goroutine is spawned at
most once. -/
theorem spawnCount_le_one {T : Type} [Inhabited T] (f : Future T) (ops : List (Op T)) :
    spawnCount f ops ≤ 1 := by
  induction ops generalizing f with
  | nil => exact Nat.zero_le 1
  | cons op ops ih =>
      simp only [spawnCount]
      cases h : opSpawns f op
      · simpa using ih (exec f op).1
      · have h0 := spawnCount_of_started (exec f op).1 ops (started_after_spawn f op h)
        simp [h0]

/-- In a terminal state every atomic section freezes state, outcome and the
done channel. -/
theorem exec_terminal_frozen {T : Type} [Inhabited T] (f : Future T) (op : Op T)
    (h : f.state.isTerminal = true) :
    (exec f op).1.state = f.state ∧ (exec f op).1.result = f.result ∧
      (exec f op).1.err = f.err ∧ (exec f op).1.doneClosed = f.doneClosed := by
  cases op <;>
    simp only [exec, startSync, taskGoroutine, OnSuccess, OnFailure, Then] <;>
    (repeat' split) <;> simp_all [GoState.isTerminal]

/-- In a terminal state every sequence of sections freezes state, outcome and
the done channel. -/
theorem execList_terminal_frozen {T : Type} [Inhabited T] (f : Future T) (ops : List (Op T))
    (h : f.state.isTerminal = true) :
    (execList f ops).1.state = f.state ∧ (execList f ops).1.result = f.result ∧
      (execList f ops).1.err = f.err ∧ (execList f ops).1.doneClosed = f.doneClosed := by
  induction ops generalizing f with
  | nil => exact ⟨rfl, rfl, rfl, rfl⟩
  | cons op ops ih =>
      obtain ⟨h1, h2, h3, h4⟩ := exec_terminal_frozen f op h
      have ht : (exec f op).1.state.isTerminal = true := by rw [h1]; exact h
      obtain ⟨g1, g2, g3, g4⟩ := ih (exec f op).1 ht
      exact ⟨g1.trans h1, g2.trans h2, g3.trans h3, g4.trans h4⟩

/-- Each atomic section only takes a transition the state diagram allows. -/
theorem exec_edgeOK {T : Type} [Inhabited T] (f : Future T) (op : Op T) :
    edgeOK f.state (exec f op).1.state := by
  cases op <;>
    simp only [exec, startSync, taskGoroutine, OnSuccess, OnFailure, Then, edgeOK] <;>
    (repeat' split) <;> simp_all

/-- Allowed transitions never lower the rank. -/
theorem edgeOK_rank_le {s t : GoState} (h : edgeOK s t) : s.rank ≤ t.rank := by
  rcases h with h | ⟨h1, h2⟩ | ⟨h1, h2⟩
  · subst h; exact Nat.le_refl _
  · subst h1; subst h2; decide
  · subst h1
    rcases h2 with h2 | h2 <;> subst h2 <;> decide

/-- The rank is monotone along any sequence of sections. -/
theorem execList_rank_mono {T : Type} [Inhabited T] (f : Future T) (ops : List (Op T)) :
    f.state.rank ≤ (execList f ops).1.state.rank := by
  induction ops generalizing f with
  | nil => exact Nat.le_refl _
  | cons op ops ih =>
      exact Nat.le_trans (edgeOK_rank_le (exec_edgeOK f op)) (ih (exec f op).1)

/-- A non-completion section leaves a Running future Running and does not
close the done channel. -/
theorem exec_nonComplete_running {T : Type} [Inhabited T] (f : Future T) (op : Op T)
    (hop : op.isComplete = false) (h : f.state = GoState.Running)
    (hd : f.doneClosed = false) :
    (exec f op).1.state = GoState.Running ∧ (exec f op).1.doneClosed = false := by
  cases op <;>
    simp only [exec, startSync, taskGoroutine, OnSuccess, OnFailure, Then, Op.isComplete] at * <;>
    (repeat' split) <;> simp_all

/-- A sequence of non-completion sections leaves a Running future Running with
the done channel still open. -/
theorem execList_nonComplete_running {T : Type} [Inhabited T] (f : Future T)
    (ops : List (Op T)) (hops : ops.all (fun op => !op.isComplete) = true)
    (h : f.state = GoState.Running) (hd : f.doneClosed = false) :
    (execList f ops).1.state = GoState.Running ∧ (execList f ops).1.doneClosed = false := by
  induction ops generalizing f with
  | nil => exact ⟨h, hd⟩
  | cons op ops ih =>
      simp only [List.all_cons, Bool.and_eq_true, Bool.not_eq_true'] at hops
      obtain ⟨h1, h2⟩ := exec_nonComplete_running f op hops.1 h hd
      exact ih (exec f op).1 hops.2 h1 h2

/-- A fire-event list produced from callback identifiers contains no
completion signal. -/
theorem countP_signal_fireFailure (l : List Nat) (e : Option String) {T : Type} :
    ((l.map (fun id => Event.fireFailure (T := T) id e)).countP Event.isSignal) = 0 := by
  induction l with
  | nil => rfl
  | cons x xs ih => simpa [List.countP_cons, Event.isSignal] using ih

/-- A success-fire-event list contains no completion signal. -/
theorem countP_signal_fireSuccess {T : Type} (l : List Nat) (v : T) :
    ((l.map (fun id => Event.fireSuccess id v)).countP Event.isSignal) = 0 := by
  induction l with
  | nil => rfl
  | cons x xs ih => simpa [List.countP_cons, Event.isSignal] using ih

/-- The completion goroutine on a Running future signals exactly once. -/
theorem taskGoroutine_signal_once {T : Type} (f : Future T)
    (h : f.state = GoState.Running) :
    ((taskGoroutine f).2.countP Event.isSignal) = 1 := by
  simp only [taskGoroutine, h]
  cases he : f.taskErr <;>
    simp [List.countP_cons, List.countP_append, Event.isSignal,
      countP_signal_fireFailure, countP_signal_fireSuccess]

/-- The `next` link is introspective only: any atomic section run with the
link set differently produces the same events and the same future up to the
link itself. -/
theorem exec_hasNext_irrelevant {T : Type} [Inhabited T] (f : Future T) (b : Bool) (op : Op T) :
    (exec { f with hasNext := b } op).2 = (exec f op).2 ∧
      eraseNext (exec { f with hasNext := b } op).1 = eraseNext (exec f op).1 := by
  cases op <;>
    simp only [exec, startSync, taskGoroutine, OnSuccess, OnFailure, Then, eraseNext] <;>
    (repeat' split) <;> simp_all

/-- A future fulfilled with result 5, obtained by running `Result` on a fresh
future whose task succeeds. -/
def fulfilledNat : Future Nat := (ResultRun (NewFuture 5 none)).1

/-- A future rejected with error "boom", obtained by running `Result` on a
fresh future whose task fails. -/
def rejectedNat : Future Nat := (ResultRun (NewFuture 0 (some "boom"))).1

/-! ### Claim theorems -/

/-- C1: the computation of a `Future` is invoked at most once no matter how
many times `Start` is reached (directly, via `Result`'s auto-start, or via
`Then`'s parent auto-start): once a first `Start` has set `started`, every
later `Start` call returns the future completely unchanged and spawns
nothing, and along any interleaving of atomic sections at most one task
goroutine is ever spawned. -/
theorem start_single_invocation {T : Type} [Inhabited T] (f g : Future T)
    (ops ops2 : List (Op T)) (h : f.started = true) :
    startSync f = (f, false) ∧ spawnCount f ops = 0 ∧ spawnCount g ops2 ≤ 1 := by
  refine ⟨?_, spawnCount_of_started f ops h, spawnCount_le_one g ops2⟩
  simp [startSync, h]

/-- Witness for C1 at a concrete started future. -/
theorem start_single_invocation_witness :
    ((startSync (NewFuture (0 : Nat) none)).1.started = true) ∧
      (startSync (startSync (NewFuture (0 : Nat) none)).1 =
          ((startSync (NewFuture (0 : Nat) none)).1, false) ∧
        spawnCount (startSync (NewFuture (0 : Nat) none)).1 ([Op.startOp] : List (Op Nat)) = 0 ∧
        spawnCount (NewFuture (0 : Nat) none) ([Op.startOp, Op.startOp] : List (Op Nat)) ≤ 1) :=
  ⟨by decide, start_single_invocation _ _ _ _ (by decide)⟩

/-- C2: the state only moves forward along
Pending → Running → (Fulfilled or Rejected): each atomic section takes only a
transition of that diagram, the rank never decreases along any interleaving,
and once the state read by `State` is terminal, it never changes again. -/
theorem state_forward_only {T : Type} [Inhabited T] (f g : Future T) (op : Op T)
    (ops : List (Op T)) (hterm : g.state.isTerminal = true) :
    edgeOK f.state (exec f op).1.state ∧
      f.state.rank ≤ (execList f ops).1.state.rank ∧
      stateRead (execList g ops).1 = stateRead g :=
  ⟨exec_edgeOK f op, execList_rank_mono f ops,
    (execList_terminal_frozen g ops hterm).1⟩

/-- Witness for C2: one start step from a fresh future, and a completed
(rejected) future frozen across further sections. -/
theorem state_forward_only_witness :
    (rejectedNat.state.isTerminal = true) ∧
      (edgeOK (NewFuture (0 : Nat) none).state (exec (NewFuture (0 : Nat) none) Op.startOp).1.state ∧
        (NewFuture (0 : Nat) none).state.rank ≤
          (execList (NewFuture (0 : Nat) none)
              ([Op.startOp, Op.completeOp, Op.stateOp] : List (Op Nat))).1.state.rank ∧
        stateRead (execList rejectedNat ([Op.startOp, Op.completeOp, Op.stateOp] : List (Op Nat))).1 =
          stateRead rejectedNat) :=
  ⟨by decide,
    state_forward_only (NewFuture (0 : Nat) none) rejectedNat Op.startOp
      [Op.startOp, Op.completeOp, Op.stateOp] (by decide)⟩

/-- C3: a parent failure short-circuits `Then`: the child future built by
`Then` carries exactly the parent's failure and a default value, the
continuation is never invoked, an arbitrary downstream chain invokes no
continuation at all and delivers the same failure with a default value, and
the final `Result` of the child returns exactly that failure paired with the
default value. -/
theorem failure_short_circuits {T : Type} [Inhabited T] (f : Future T) (e : String)
    (cont : T → T × Option String) (conts : List (T → T × Option String))
    (hf : f.taskErr = some e) :
    (Then f cont).2.1.taskErr = some e ∧
      (Then f cont).2.1.taskVal = (default : T) ∧
      (childOutcome (f.taskVal, f.taskErr) cont).2 = false ∧
      runChain ((default : T), some e) conts = ((default, some e), 0) ∧
      (ResultRun (Then f cont).2.1).2 = ((default : T), some e) := by
  have hvals : childOutcome (f.taskVal, f.taskErr) cont = (((default : T), some e), false) := by
    simp [childOutcome, hf]
  have hchain : ∀ cs : List (T → T × Option String),
      runChain ((default : T), some e) cs = ((default, some e), 0) := by
    intro cs
    induction cs with
    | nil => rfl
    | cons c cs ih => simp [runChain, childOutcome, ih]
  refine ⟨?_, ?_, ?_, hchain conts, ?_⟩
  · simp [Then, NewFuture, hvals]
  · simp [Then, NewFuture, hvals]
  · simp [hvals]
  · simp [Then, NewFuture, hvals, ResultRun, startSync, taskGoroutine]

/-- Witness for C3 at the repository's error-propagation test: the first
task fails with "intentional failure in first future". -/
theorem failure_short_circuits_witness :
    ((NewFuture (0 : Nat) (some "intentional failure in first future")).taskErr =
        some "intentional failure in first future") ∧
      ((Then (NewFuture (0 : Nat) (some "intentional failure in first future"))
            (fun n => (n + 1, none))).2.1.taskErr =
          some "intentional failure in first future" ∧
        (Then (NewFuture (0 : Nat) (some "intentional failure in first future"))
            (fun n => (n + 1, none))).2.1.taskVal = (default : Nat) ∧
        (childOutcome
            ((NewFuture (0 : Nat) (some "intentional failure in first future")).taskVal,
              (NewFuture (0 : Nat) (some "intentional failure in first future")).taskErr)
            (fun n => (n + 1, none))).2 = false ∧
        runChain ((default : Nat), some "intentional failure in first future")
            [fun n => (n + 1, none)] =
          ((default, some "intentional failure in first future"), 0) ∧
        (ResultRun (Then (NewFuture (0 : Nat) (some "intentional failure in first future"))
              (fun n => (n + 1, none))).2.1).2 =
          ((default : Nat), some "intentional failure in first future")) :=
  ⟨rfl, failure_short_circuits _ _ _ _ rfl⟩

/-- C4: `Result` on a never-started future auto-starts it, completes, and
returns the task's outcome (the value on success, the default value plus the
failure on failure); afterwards the done channel is closed, the state is
terminal, and every later `Result` call — after any interleaving of further
atomic sections — returns the identical pair. -/
theorem result_auto_start_idempotent {T : Type} [Inhabited T] (v : T) (e : Option String)
    (ops : List (Op T)) :
    (ResultRun (NewFuture v e)).2 =
        (match e with
         | some e0 => ((default : T), some e0)
         | none => (v, none)) ∧
      (ResultRun (NewFuture v e)).1.doneClosed = true ∧
      (ResultRun (NewFuture v e)).1.state.isTerminal = true ∧
      (ResultRun (execList (ResultRun (NewFuture v e)).1 ops).1).2 =
        (ResultRun (NewFuture v e)).2 := by
  have hrun : ResultRun (NewFuture v e) =
      ((taskGoroutine (startSync (NewFuture v e)).1).1,
        ((taskGoroutine (startSync (NewFuture v e)).1).1.result,
          (taskGoroutine (startSync (NewFuture v e)).1).1.err)) := by
    simp [ResultRun, NewFuture, startSync]
  cases e with
  | none =>
      constructor
      · simp [ResultRun, NewFuture, startSync, taskGoroutine]
      constructor
      · simp [ResultRun, NewFuture, startSync, taskGoroutine]
      constructor
      · simp [ResultRun, NewFuture, startSync, taskGoroutine, GoState.isTerminal]
      · have hterm : (ResultRun (NewFuture v none)).1.state.isTerminal = true := by
          simp [ResultRun, NewFuture, startSync, taskGoroutine, GoState.isTerminal]
        have hstart : (ResultRun (NewFuture v none)).1.started = true := by
          simp [ResultRun, NewFuture, startSync, taskGoroutine]
        obtain ⟨h1, h2, h3, h4⟩ :=
          execList_terminal_frozen (ResultRun (NewFuture v none)).1 ops hterm
        have hstart2 := execList_keeps_started (ResultRun (NewFuture v none)).1 ops hstart
        have hread : ∀ gg : Future T, gg.started = true →
            (ResultRun gg).2 = (gg.result, gg.err) := by
          intro gg hg
          simp [ResultRun, hg]
        rw [hread _ hstart2, h2, h3]
        rfl
  | some e0 =>
      constructor
      · simp [ResultRun, NewFuture, startSync, taskGoroutine]
      constructor
      · simp [ResultRun, NewFuture, startSync, taskGoroutine]
      constructor
      · simp [ResultRun, NewFuture, startSync, taskGoroutine, GoState.isTerminal]
      · have hterm : (ResultRun (NewFuture v (some e0))).1.state.isTerminal = true := by
          simp [ResultRun, NewFuture, startSync, taskGoroutine, GoState.isTerminal]
        have hstart : (ResultRun (NewFuture v (some e0))).1.started = true := by
          simp [ResultRun, NewFuture, startSync, taskGoroutine]
        obtain ⟨h1, h2, h3, h4⟩ :=
          execList_terminal_frozen (ResultRun (NewFuture v (some e0))).1 ops hterm
        have hstart2 := execList_keeps_started (ResultRun (NewFuture v (some e0))).1 ops hstart
        have hread : ∀ gg : Future T, gg.started = true →
            (ResultRun gg).2 = (gg.result, gg.err) := by
          intro gg hg
          simp [ResultRun, hg]
        rw [hread _ hstart2, h2, h3]
        rfl

/-- C5: when the parent fulfills, the child future built by `Then` takes the
continuation's outcome on the parent's value as its own outcome; composing
`Then` transitively, the repository's four-link string chain (seed "Start",
links appending the three step suffixes) delivers the fully concatenated
string from its final `Result`. -/
theorem then_success_composes {T A : Type} [Inhabited A] (f : Future T)
    (cont : T → A × Option String) (he : f.taskErr = none) :
    (Then f cont).2.1.taskVal = (cont f.taskVal).1 ∧
      (Then f cont).2.1.taskErr = (cont f.taskVal).2 ∧
      (childOutcome (f.taskVal, f.taskErr) cont).2 = true ∧
      (ResultRun chainLink3.2.1).2 = ("Start → Step 1 → Step 2 → Step 3", none) := by
  have hc : childOutcome (f.taskVal, f.taskErr) cont = ((cont f.taskVal), true) := by
    simp [childOutcome, he]
  refine ⟨?_, ?_, ?_, ?_⟩
  · simp [Then, NewFuture, hc]
  · simp [Then, NewFuture, hc]
  · simp [hc]
  · decide

/-- Witness for C5 at the first link of the concrete chain. -/
theorem then_success_composes_witness :
    ((NewFuture "Start" none).taskErr = none) ∧
      ((Then (NewFuture "Start" none)
            (fun s => (s ++ " → Step 1", (none : Option String)))).2.1.taskVal =
          ((fun s => (s ++ " → Step 1", (none : Option String)))
            (NewFuture "Start" none).taskVal).1 ∧
        (Then (NewFuture "Start" none)
            (fun s => (s ++ " → Step 1", (none : Option String)))).2.1.taskErr =
          ((fun s => (s ++ " → Step 1", (none : Option String)))
            (NewFuture "Start" none).taskVal).2 ∧
        (childOutcome ((NewFuture "Start" none).taskVal, (NewFuture "Start" none).taskErr)
            (fun s => (s ++ " → Step 1", (none : Option String)))).2 = true ∧
        (ResultRun chainLink3.2.1).2 = ("Start → Step 1 → Step 2 → Step 3", none)) :=
  ⟨rfl, then_success_composes _ _ rfl⟩

/-- A concrete Running future with a failing task and one registered failure
callback: a fresh future after its `Start` guard section and an `OnFailure`
registration. -/
def runningNat : Future Nat :=
  (exec (startSync (NewFuture 0 (some "boom"))).1 (Op.onFailureOp 3)).1

/-- C6: on a Running future the completion goroutine produces the trace
"task invocation, then the callbacks of the matching list snapshotted at
completion time in registration order, then exactly one completion signal";
afterwards the done channel is closed, the state is terminal, and the
outcome fields hold the task's outcome — so any context that wakes from
`Result` or observes the signal sees the terminal state, the assigned
outcome, and all callbacks registered before completion already fired. -/
theorem completion_order_and_signal {T : Type} (f : Future T) (e : String)
    (hr : f.state = GoState.Running) :
    (f.taskErr = some e →
        (taskGoroutine f).2 =
          Event.invokeTask ::
            (f.onFailure.map (fun id => Event.fireFailure id (some e)) ++
              [Event.signalDone]) ∧
          (taskGoroutine f).1.err = some e) ∧
      (f.taskErr = none →
        (taskGoroutine f).2 =
          Event.invokeTask ::
            (f.onSuccess.map (fun id => Event.fireSuccess id f.taskVal) ++
              [Event.signalDone]) ∧
          (taskGoroutine f).1.result = f.taskVal) ∧
      ((taskGoroutine f).2.countP Event.isSignal = 1) ∧
      (taskGoroutine f).1.doneClosed = true ∧
      (taskGoroutine f).1.state.isTerminal = true := by
  refine ⟨?_, ?_, taskGoroutine_signal_once f hr, ?_, ?_⟩
  · intro he
    simp [taskGoroutine, hr, he]
  · intro he
    simp [taskGoroutine, hr, he]
  · simp only [taskGoroutine, hr]
    cases he : f.taskErr <;> simp
  · simp only [taskGoroutine, hr]
    cases he : f.taskErr <;> simp [GoState.isTerminal]

/-- Witness for C6 at the concrete Running future `runningNat`. -/
theorem completion_order_and_signal_witness :
    (runningNat.state = GoState.Running) ∧
      ((runningNat.taskErr = some "boom" →
          (taskGoroutine runningNat).2 =
            Event.invokeTask ::
              (runningNat.onFailure.map (fun id => Event.fireFailure id (some "boom")) ++
                [Event.signalDone]) ∧
            (taskGoroutine runningNat).1.err = some "boom") ∧
        (runningNat.taskErr = none →
          (taskGoroutine runningNat).2 =
            Event.invokeTask ::
              (runningNat.onSuccess.map (fun id => Event.fireSuccess id runningNat.taskVal) ++
                [Event.signalDone]) ∧
            (taskGoroutine runningNat).1.result = runningNat.taskVal) ∧
        ((taskGoroutine runningNat).2.countP Event.isSignal = 1) ∧
        (taskGoroutine runningNat).1.doneClosed = true ∧
        (taskGoroutine runningNat).1.state.isTerminal = true) :=
  ⟨by decide, completion_order_and_signal runningNat "boom" (by decide)⟩

/-- C7: registering a callback when the matching terminal state already holds
fires it immediately, synchronously, exactly once, with the stored result
(`OnSuccess` on Fulfilled) or stored failure (`OnFailure` on Rejected),
leaving the future — including its callback lists — unchanged; in every
other state the callback is appended to its list and nothing fires. -/
theorem late_registration_immediate {T : Type} (f : Future T) (cb : Nat) :
    (f.state = GoState.Fulfilled →
        OnSuccess f cb = (f, [Event.fireSuccess cb f.result])) ∧
      (f.state ≠ GoState.Fulfilled →
        OnSuccess f cb = ({ f with onSuccess := f.onSuccess ++ [cb] }, [])) ∧
      (f.state = GoState.Rejected →
        OnFailure f cb = (f, [Event.fireFailure cb f.err])) ∧
      (f.state ≠ GoState.Rejected →
        OnFailure f cb = ({ f with onFailure := f.onFailure ++ [cb] }, [])) := by
  refine ⟨?_, ?_, ?_, ?_⟩ <;> intro h <;> simp [OnSuccess, OnFailure, h]

/-- Witness for C7 at concrete completed futures. -/
theorem late_registration_immediate_witness :
    OnSuccess fulfilledNat 7 = (fulfilledNat, [Event.fireSuccess 7 fulfilledNat.result]) ∧
      OnFailure rejectedNat 9 = (rejectedNat, [Event.fireFailure 9 rejectedNat.err]) :=
  ⟨(late_registration_immediate fulfilledNat 7).1 (by decide),
    (late_registration_immediate rejectedNat 9).2.2.1 (by decide)⟩

/-- C8 counterexample: `rejectedNat` is in a terminal state (Rejected), yet a
callback registered afterwards through `OnSuccess` does not fire at
registration time (its event trace is empty) and is queued on the success
list — contradicting "fires immediately regardless of which terminal state,
instead of being queued". -/
theorem mismatched_registration_queued :
    rejectedNat.state.isTerminal = true ∧
      (OnSuccess rejectedNat 5).2 = [] ∧
      (OnSuccess rejectedNat 5).1.onSuccess = rejectedNat.onSuccess ++ [5] := by
  decide

/-- C8 amended: after a terminal state is reached, a newly registered callback
fires immediately, synchronously, at registration time exactly when it is
registered through the method matching that terminal state (`OnSuccess` for
Fulfilled, `OnFailure` for Rejected); a callback registered through the
mismatched method is appended to its callback list instead and fires no
event. -/
theorem late_registration_matching_kind {T : Type} (f : Future T) (cb : Nat)
    (hterm : f.state.isTerminal = true) :
    (f.state = GoState.Fulfilled →
        OnSuccess f cb = (f, [Event.fireSuccess cb f.result]) ∧
          OnFailure f cb = ({ f with onFailure := f.onFailure ++ [cb] }, [])) ∧
      (f.state = GoState.Rejected →
        OnFailure f cb = (f, [Event.fireFailure cb f.err]) ∧
          OnSuccess f cb = ({ f with onSuccess := f.onSuccess ++ [cb] }, [])) := by
  constructor <;> intro h <;> constructor <;> simp [OnSuccess, OnFailure, h]

/-- Witness for the amended C8 at a concrete fulfilled future. -/
theorem late_registration_matching_kind_witness :
    fulfilledNat.state.isTerminal = true ∧
      ((fulfilledNat.state = GoState.Fulfilled →
          OnSuccess fulfilledNat 2 = (fulfilledNat, [Event.fireSuccess 2 fulfilledNat.result]) ∧
            OnFailure fulfilledNat 2 =
              ({ fulfilledNat with onFailure := fulfilledNat.onFailure ++ [2] }, [])) ∧
        (fulfilledNat.state = GoState.Rejected →
          OnFailure fulfilledNat 2 = (fulfilledNat, [Event.fireFailure 2 fulfilledNat.err]) ∧
            OnSuccess fulfilledNat 2 =
              ({ fulfilledNat with onSuccess := fulfilledNat.onSuccess ++ [2] }, []))) :=
  ⟨by decide, late_registration_matching_kind fulfilledNat 2 (by decide)⟩

/-- C9: `Then` returns a fresh Pending child with `started = false`, an open
done channel and empty callback lists (so its computation has not been
invoked and it is not auto-started); it spawns a `Start` of the parent
exactly when the parent was not already started; and its only effect on the
parent is recording the successor link, which is behaviorally inert: any
atomic section run with the link set differently yields the same events and
the same future apart from the link itself. -/
theorem then_child_pending_parent_link {T A : Type} [Inhabited T] [Inhabited A]
    (f : Future T) (cont : T → A × Option String) (b : Bool) (op : Op T) :
    (Then f cont).2.1.state = GoState.Pending ∧
      (Then f cont).2.1.started = false ∧
      (Then f cont).2.1.doneClosed = false ∧
      (Then f cont).2.1.onSuccess = [] ∧
      (Then f cont).2.1.onFailure = [] ∧
      (Then f cont).2.2 = !f.started ∧
      (Then f cont).1 = { f with hasNext := true } ∧
      (exec { f with hasNext := b } op).2 = (exec f op).2 ∧
      eraseNext (exec { f with hasNext := b } op).1 = eraseNext (exec f op).1 := by
  obtain ⟨h1, h2⟩ := exec_hasNext_irrelevant f b op
  exact ⟨rfl, rfl, rfl, rfl, rfl, rfl, rfl, h1, h2⟩

/-- C10: after `Start`'s guard section spawns the goroutine (state Running,
done channel open), any interleaving of sections other than the goroutine's
own completion leaves the state Running with the channel open; hence the
goroutine's defensive not-Running check never fires: it completes to a
terminal state, closes the done channel, and emits exactly one completion
signal — so `Result`'s wait returns and `close` runs exactly once. -/
theorem defensive_branch_unreachable {T : Type} [Inhabited T] (f : Future T)
    (ops : List (Op T)) (hspawn : (startSync f).2 = true)
    (hdone : f.doneClosed = false)
    (hops : ops.all (fun op0 => !op0.isComplete) = true) :
    (execList (startSync f).1 ops).1.state = GoState.Running ∧
      (execList (startSync f).1 ops).1.doneClosed = false ∧
      (taskGoroutine (execList (startSync f).1 ops).1).1.state.isTerminal = true ∧
      (taskGoroutine (execList (startSync f).1 ops).1).1.doneClosed = true ∧
      (taskGoroutine (execList (startSync f).1 ops).1).2.countP Event.isSignal = 1 := by
  have hrun : (startSync f).1.state = GoState.Running ∧ (startSync f).1.doneClosed = false := by
    by_cases hc : f.state ≠ GoState.Pending ∨ f.started = true
    · simp [startSync, hc] at hspawn
    · simp [startSync, hc, hdone]
  obtain ⟨hr, hd⟩ := hrun
  obtain ⟨h1, h2⟩ := execList_nonComplete_running (startSync f).1 ops hops hr hd
  refine ⟨h1, h2, ?_, ?_, taskGoroutine_signal_once _ h1⟩
  · simp only [taskGoroutine, h1]
    cases he : (execList (startSync f).1 ops).1.taskErr <;> simp [GoState.isTerminal]
  · simp only [taskGoroutine, h1]
    cases he : (execList (startSync f).1 ops).1.taskErr <;> simp

/-- Witness for C10 at a fresh future with two intervening registrations. -/
theorem defensive_branch_unreachable_witness :
    ((startSync (NewFuture (5 : Nat) none)).2 = true) ∧
      ((NewFuture (5 : Nat) none).doneClosed = false) ∧
      (([Op.onSuccessOp 1, Op.stateOp] : List (Op Nat)).all (fun op0 => !op0.isComplete) = true) ∧
      ((execList (startSync (NewFuture (5 : Nat) none)).1
            ([Op.onSuccessOp 1, Op.stateOp] : List (Op Nat))).1.state = GoState.Running ∧
        (execList (startSync (NewFuture (5 : Nat) none)).1
            ([Op.onSuccessOp 1, Op.stateOp] : List (Op Nat))).1.doneClosed = false ∧
        (taskGoroutine (execList (startSync (NewFuture (5 : Nat) none)).1
              ([Op.onSuccessOp 1, Op.stateOp] : List (Op Nat))).1).1.state.isTerminal = true ∧
        (taskGoroutine (execList (startSync (NewFuture (5 : Nat) none)).1
              ([Op.onSuccessOp 1, Op.stateOp] : List (Op Nat))).1).1.doneClosed = true ∧
        (taskGoroutine (execList (startSync (NewFuture (5 : Nat) none)).1
              ([Op.onSuccessOp 1, Op.stateOp] : List (Op Nat))).1).2.countP Event.isSignal = 1) :=
  ⟨by decide, by decide, by decide,
    defensive_branch_unreachable (NewFuture (5 : Nat) none)
      ([Op.onSuccessOp 1, Op.stateOp] : List (Op Nat)) (by decide) (by decide) (by decide)⟩

end GoFutures
